import Mathlib

/-!
# gqlgen-todos: the server lifecycle controller

A shallow embedding of `server/server.go`: port resolution, the request-id
logger decoration, the middleware chain and route table handed to the chi
router, the serving goroutine, the signal goroutine and the shutdown sequence
of `main`.

The file `server.go` is wiring: most of what a run does happens inside the
packages it calls (`os`, `zap`, `chi`, `rs/cors`, `net/http`, `os/signal`).
Those packages are not part of the repository; each is represented here by a
small model of the calls `server.go` makes, and every such model says so in
its doc comment.
-/

namespace GqlgenTodos

/-! ## Go values -/

/-- Process environment as seen by package os: the NAME=value pairs. -/
abbrev Env := List (String × String)

/-- Model of os.Getenv: the value of the variable named by the key, and the
empty string when the variable is not present. -/
def Getenv (env : Env) (key : String) : String :=
  match env.find? (fun kv => kv.1 == key) with
  | some kv => kv.2
  | none => ""

/-- A value of the Go interface type error. Two error values compare equal
with == only when they are the same value, so an error that merely carries the
text of http.ErrServerClosed is a different value. -/
inductive GoError
  | nil
  | ErrServerClosed
  | other (msg : String)
  deriving DecidableEq, Repr

/-- The text err.Error() returns (nil is shown the way the fmt verbs show it). -/
def GoError.Error : GoError → String
  | GoError.nil => "<nil>"
  | GoError.ErrServerClosed => "http: Server closed"
  | GoError.other msg => msg

/-- In package time a Duration counts nanoseconds: time.Second. -/
def Second : Int := 1000000000

/-- Source constant defaultPort. -/
def defaultPort : String := "8080"

/-- Source constant defaultGracefulTimeout = time.Second * 60. -/
def defaultGracefulTimeout : Int := Second * 60

/-! ## zap: levels, fields, loggers -/

/-- Severity levels of zapcore. -/
inductive Level
  | Debug | Info | Warn | Error | DPanic | Panic | Fatal
  deriving DecidableEq, Repr

/-- A structured logging field, by the zapcore field types server.go uses. -/
inductive Field
  | str (key val : String)
  | duration (key : String) (val : Int)
  | error (key : String) (err : GoError)
  deriving DecidableEq, Repr

/-- Model of zap.String. -/
def zapString (key val : String) : Field := Field.str key val

/-- Model of zap.Duration. -/
def zapDuration (key : String) (val : Int) : Field := Field.duration key val

/-- Model of zap.Error: the error under the key "error". -/
def zapError (err : GoError) : Field := Field.error "error" err

/-- Model of a zap logger: the fields bound to it, which every record it
writes carries. -/
structure Logger where
  context : List Field
  deriving DecidableEq, Repr

/-- Model of zap.NewDevelopment: a logger with no bound field (main drops the
error result of the call). -/
def NewDevelopment : Logger := { context := [] }

/-- Model of Logger.With: a child logger with the given fields added to the
bound ones; with no field given it is the logger itself. -/
def Logger.With (l : Logger) (fields : List Field) : Logger :=
  if fields.isEmpty then l else { l with context := l.context ++ fields }

/-! ## Requests and their context -/

/-- The method type of the chi route tree (methodTyp): the nine methods of its
methodMap. -/
inductive Method
  | CONNECT | DELETE | GET | HEAD | OPTIONS | PATCH | POST | PUT | TRACE
  deriving DecidableEq, Repr

/-- The method token each method stands for, as it is written in a request
line. -/
def Method.name : Method → String
  | Method.CONNECT => "CONNECT"
  | Method.DELETE => "DELETE"
  | Method.GET => "GET"
  | Method.HEAD => "HEAD"
  | Method.OPTIONS => "OPTIONS"
  | Method.PATCH => "PATCH"
  | Method.POST => "POST"
  | Method.PUT => "PUT"
  | Method.TRACE => "TRACE"

/-- Model of the chi table methodMap: the method of a request-line token, and
nothing for a token that is not one of the nine (net/http accepts any token as
a method). -/
def methodMap (token : String) : Option Method :=
  if token == "CONNECT" then some Method.CONNECT
  else if token == "DELETE" then some Method.DELETE
  else if token == "GET" then some Method.GET
  else if token == "HEAD" then some Method.HEAD
  else if token == "OPTIONS" then some Method.OPTIONS
  else if token == "PATCH" then some Method.PATCH
  else if token == "POST" then some Method.POST
  else if token == "PUT" then some Method.PUT
  else if token == "TRACE" then some Method.TRACE
  else none

/-- Keys of a request context: the chi request-id key and any other key. -/
inductive CtxKey
  | RequestIDKey
  | key (name : String)
  deriving DecidableEq, Repr

/-- Values stored in a request context: a string, or a value of another type. -/
inductive CtxValue
  | str (s : String)
  | logger (l : Logger)
  | opaqueValue
  deriving DecidableEq, Repr

/-- Model of context.Context: the key/value bindings, newest first. -/
structure Context where
  values : List (CtxKey × CtxValue)
  deriving DecidableEq, Repr

/-- Model of Context.Value: the newest binding of the key, if any. -/
def Context.Value (ctx : Context) (key : CtxKey) : Option CtxValue :=
  (ctx.values.find? (fun kv => kv.1 == key)).map (fun kv => kv.2)

/-- Model of context.WithValue. -/
def Context.WithValue (ctx : Context) (key : CtxKey) (val : CtxValue) : Context :=
  { values := (key, val) :: ctx.values }

/-- Model of chi middleware.GetReqID: the string stored under RequestIDKey,
and the empty string when nothing or a non-string is stored there. -/
def GetReqID (ctx : Context) : String :=
  match ctx.Value CtxKey.RequestIDKey with
  | some (CtxValue.str reqID) => reqID
  | _ => ""

/-- Model of http.Request: method token, URL path, header (canonical keys) and
context. -/
structure Request where
  Method : String
  Path : String
  Header : List (String × String)
  ctx : Context
  deriving DecidableEq, Repr

/-- Model of Header.Get: the first value under the key, "" when absent. -/
def Request.HeaderGet (r : Request) (key : String) : String :=
  match r.Header.find? (fun kv => kv.1 == key) with
  | some kv => kv.2
  | none => ""

/-! ## server.go: withRequestID -/

/-- Source function withRequestID. -/
def withRequestID (logger : Logger) (r : Request) : Logger :=
  let reqID := GetReqID r.ctx
  if reqID.length == 0 then
    logger
  else
    logger.With [zapString "reqId" reqID]

/-! ## server.go: port resolution -/

/-- The first statements of main: read PORT, fall back to defaultPort. -/
def resolvePort (env : Env) : String :=
  let port := Getenv env "PORT"
  if port == "" then defaultPort else port

/-! ## rs/cors -/

/-- The fields of cors.Options that matter here; a field a caller leaves out
has its zero value. -/
structure Options where
  AllowedOrigins : List String
  AllowedMethods : List String
  AllowCredentials : Bool
  OptionsPassthrough : Bool
  deriving DecidableEq, Repr

/-- Model of the Cors value cors.New builds. A wildcard origin is kept as the
text before and after its star. -/
structure Cors where
  allowedOrigins : List String
  allowedWOrigins : List (String × String)
  allowedOriginsAll : Bool
  allowedHeaders : List String
  allowedHeadersAll : Bool
  allowedMethods : List String
  allowCredentials : Bool
  optionPassthrough : Bool
  deriving DecidableEq, Repr

/-- Lower case of one character as far as ASCII letters are the result: an
ASCII capital, the Kelvin sign (8490) and the dotted capital I (304) become
their ASCII small letter; any other character is kept. -/
def lowerChar (c : Char) : Char :=
  if c = Char.ofNat 8490 then 'k'
  else if c = Char.ofNat 304 then 'i'
  else c.toLower

/-- Upper case of one character as far as ASCII letters are the result: an
ASCII small letter, the long s (383) and the dotless i (305) become their ASCII
capital; any other character is kept. -/
def upperChar (c : Char) : Char :=
  if c = Char.ofNat 383 then 'S'
  else if c = Char.ofNat 305 then 'I'
  else c.toUpper

/-- Model of strings.ToLower, character by character, exact wherever the
result is compared with an ASCII string. -/
def ToLower (s : String) : String := String.mk (s.data.map lowerChar)

/-- Model of strings.ToUpper, character by character, exact wherever the
result is compared with an ASCII string. -/
def ToUpper (s : String) : String := String.mk (s.data.map upperChar)

/-- An origin pattern split at its first star, when it has one. -/
def splitWildcard (origin : String) : Option (String × String) :=
  match origin.data.span (fun c => c != '*') with
  | (_, []) => none
  | (before, _ :: after) => some (String.mk before, String.mk after)

/-- Model of cors.New, for the options above: origins are lower-cased; no
origin at all or a "*" entry allows every origin; the default methods are the
simple methods; the allowed headers are the defaults of the package. Origin
callbacks, the options for allowed and exposed headers, the maximum age and
debug logging, which server.go does not set, are left out. -/
def corsNew (options : Options) : Cors :=
  let origins := options.AllowedOrigins.map ToLower
  let all := origins.isEmpty || origins.contains "*"
  { allowedOriginsAll := all
    allowedOrigins :=
      if all then [] else origins.filter (fun o => (splitWildcard o).isNone)
    allowedWOrigins := if all then [] else origins.filterMap splitWildcard
    allowedHeaders := ["Origin", "Accept", "Content-Type", "X-Requested-With"]
    allowedHeadersAll := false
    allowedMethods :=
      if options.AllowedMethods.isEmpty then ["GET", "POST", "HEAD"]
      else options.AllowedMethods.map ToUpper
    allowCredentials := options.AllowCredentials
    optionPassthrough := options.OptionsPassthrough }

/-- Model of wildcard.match: long enough, and starting and ending as asked. -/
def wildcardMatch (w : String × String) (s : String) : Bool :=
  decide (w.1.length + w.2.length ≤ s.length)
    && w.1.data.isPrefixOf s.data && w.2.data.isSuffixOf s.data

/-- Model of Cors.isOriginAllowed. -/
def Cors.isOriginAllowed (c : Cors) (origin : String) : Bool :=
  if c.allowedOriginsAll then true
  else
    let origin := ToLower origin
    c.allowedOrigins.contains origin
      || c.allowedWOrigins.any (fun w => wildcardMatch w origin)

/-- Model of Cors.isMethodAllowed. -/
def Cors.isMethodAllowed (c : Cors) (method : String) : Bool :=
  if c.allowedMethods.isEmpty then false
  else
    let method := ToUpper method
    if method == "OPTIONS" then true else c.allowedMethods.contains method

/-- One byte of the loop of parseHeaderList and the bytes after it: the header
name being collected, whether its next letter is upper-cased, and the names
found so far. A name is flushed at a blank, a comma or the last byte. -/
def parseHeaderListLoop :
    List Char → List Char → Bool → List String → List String
  | [], _, _, headers => headers
  | b :: rest, h, upper, headers =>
    let h :=
      if 'a' ≤ b ∧ b ≤ 'z' then (if upper then h ++ [b.toUpper] else h ++ [b])
      else if 'A' ≤ b ∧ b ≤ 'Z' then (if upper then h ++ [b] else h ++ [b.toLower])
      else if b = '-' ∨ b = '_' ∨ ('0' ≤ b ∧ b ≤ '9') then h ++ [b]
      else h
    if b = ' ' ∨ b = ',' ∨ rest.isEmpty then
      if h.isEmpty then parseHeaderListLoop rest h upper headers
      else parseHeaderListLoop rest [] true (headers ++ [String.mk h])
    else
      parseHeaderListLoop rest h (decide (b = '-' ∨ b = '_')) headers

/-- Model of parseHeaderList: the header names of a comma-separated list,
normalised letter by letter. -/
def parseHeaderList (headerList : String) : List String :=
  parseHeaderListLoop headerList.data [] true []

/-- Model of http.CanonicalHeaderKey on a name made of letters, digits, hyphens
and underscores, as parseHeaderList returns them: the first letter and every
letter after a hyphen upper-cased, the others lower-cased. -/
def CanonicalHeaderKey (key : String) : String :=
  let step := fun (acc : List Char × Bool) (c : Char) =>
    (acc.1 ++ [if acc.2 then c.toUpper else c.toLower], decide (c = '-'))
  String.mk (key.data.foldl step ([], true)).1

/-- Model of Cors.areHeadersAllowed. -/
def Cors.areHeadersAllowed (c : Cors) (requestedHeaders : List String) : Bool :=
  if c.allowedHeadersAll || requestedHeaders.isEmpty then true
  else requestedHeaders.all (fun h => c.allowedHeaders.contains (CanonicalHeaderKey h))

/-- Model of Cors.handlePreflight: the Access-Control response headers of the
answer to a preflight (the Vary headers are not tracked). Nothing is added
without Origin, for an origin that is not allowed, for a requested method that
is not allowed or for requested headers that are not allowed. -/
def Cors.handlePreflight (c : Cors) (r : Request) : List (String × String) :=
  let origin := r.HeaderGet "Origin"
  if r.Method != "OPTIONS" then []
  else if origin == "" then []
  else if !c.isOriginAllowed origin then []
  else
    let reqMethod := r.HeaderGet "Access-Control-Request-Method"
    if !c.isMethodAllowed reqMethod then []
    else
      let reqHeaders := parseHeaderList (r.HeaderGet "Access-Control-Request-Headers")
      if !c.areHeadersAllowed reqHeaders then []
      else
        [("Access-Control-Allow-Origin", if c.allowedOriginsAll then "*" else origin),
         ("Access-Control-Allow-Methods", ToUpper reqMethod)]
          ++ (if reqHeaders.isEmpty then []
              else [("Access-Control-Allow-Headers", ", ".intercalate reqHeaders)])
          ++ (if c.allowCredentials then [("Access-Control-Allow-Credentials", "true")]
              else [])

/-- Model of Cors.handleActualRequest: the Access-Control response headers
the stage adds for a request that is not a preflight (the Vary header is not
tracked). Nothing is added for an OPTIONS request, a request without Origin,
an origin that is not allowed or a method that is not allowed. -/
def Cors.handleActualRequest (c : Cors) (r : Request) : List (String × String) :=
  let origin := r.HeaderGet "Origin"
  if r.Method == "OPTIONS" then []
  else if origin == "" then []
  else if !c.isOriginAllowed origin then []
  else if !c.isMethodAllowed r.Method then []
  else
    [("Access-Control-Allow-Origin", if c.allowedOriginsAll then "*" else origin)]
      ++ (if c.allowCredentials then [("Access-Control-Allow-Credentials", "true")]
          else [])

/-- The test Cors.Handler makes first: a preflight is an OPTIONS request that
carries Access-Control-Request-Method. -/
def isPreflight (r : Request) : Bool :=
  r.Method == "OPTIONS" && r.HeaderGet "Access-Control-Request-Method" != ""

/-- What the handler returned by Cors.Handler does with a request: whether it
treats it as a preflight, the Access-Control headers it adds to the response,
and whether it calls next.ServeHTTP. -/
structure CorsResult where
  preflight : Bool
  added : List (String × String)
  callsNext : Bool
  deriving DecidableEq, Repr

/-- Model of the handler Cors.Handler returns: a preflight gets the headers of
handlePreflight and is handed to the next handler only under
OptionsPassthrough, else the stage writes the answer itself; any other request
gets the headers of handleActualRequest and is then always handed to the next
handler. -/
def Cors.Handler (c : Cors) (r : Request) : CorsResult :=
  if isPreflight r then
    { preflight := true, added := c.handlePreflight r, callsNext := c.optionPassthrough }
  else
    { preflight := false, added := c.handleActualRequest r, callsNext := true }

/-! ## Middlewares and handlers -/

/-- The middlewares server.go installs, as values: chi middleware.RequestID,
zapmw.WithZap with its logger and its decorating function, zapmw.Request with
its level and message, and the handler wrapper of a Cors value. -/
inductive Middleware
  | RequestID
  | WithZap (logger : Logger) (appendFields : Logger → Request → Logger)
  | Request (level : Level) (msg : String)
  | corsHandler (c : Cors)

/-- Handlers, as terms: the two endpoint handlers of server.go, the route
dispatch of a chi Mux, and a handler wrapped by a middleware. -/
inductive Handler
  | Playground (title endpoint : String)
  | GraphQL
  | routeHTTP
  | wrap (m : Middleware) (next : Handler)

/-- The Options literal of corsMiddleware: the two fields it sets, the rest
zero. -/
def corsOptions : Options :=
  { AllowedOrigins := ["http://localhost:8080"]
    AllowedMethods := []
    AllowCredentials := true
    OptionsPassthrough := false }

/-- Source function corsMiddleware: the Handler method of the Cors value
built from the options. -/
def corsMiddleware : Middleware :=
  let c := corsNew corsOptions
  Middleware.corsHandler c

/-! ## chi: the router -/

/-- One entry of the route tree: the methods it answers, its pattern and its
endpoint handler. -/
structure Route where
  methods : List Method
  pattern : String
  handler : Handler

/-- Method set mALL of chi: every method of its method type. -/
def mALL : List Method :=
  [Method.CONNECT, Method.DELETE, Method.GET, Method.HEAD, Method.OPTIONS,
   Method.PATCH, Method.POST, Method.PUT, Method.TRACE]

/-- Model of chi.Mux: the middleware stack, the handler computed from it
(absent until the first route is registered) and the route tree. -/
structure Mux where
  middlewares : List Middleware
  handler : Option Handler
  tree : List Route

/-- Model of chi.NewRouter. -/
def NewRouter : Mux := { middlewares := [], handler := none, tree := [] }

/-- Model of the chi function chain: the first middleware of the list becomes
the outermost wrapper of the endpoint. -/
def chain (middlewares : List Middleware) (endpoint : Handler) : Handler :=
  middlewares.foldr Handler.wrap endpoint

/-- Model of Mux.Use: appends to the stack, and panics once the handler has
been computed, that is once a route is registered. -/
def Mux.Use (mx : Mux) (middlewares : List Middleware) : Except String Mux :=
  if mx.handler.isSome then
    Except.error "chi: all middlewares must be defined before routes on a mux"
  else
    Except.ok { mx with middlewares := mx.middlewares ++ middlewares }

/-- Whether a pattern is static: no parameter (opening brace, character 123),
no wildcard. -/
def staticPattern (pattern : String) : Bool :=
  pattern.data.all (fun c => c != Char.ofNat 123 && c != '*')

/-- Model of Mux.Handle: the route answers every method (mALL). The pattern
must begin with a slash; the first registration computes the mux handler from
the stack; registering a pattern again replaces its endpoint. Patterns with
parameters or wildcards, which server.go does not use, are outside the model
and reported as such. -/
def Mux.Handle (mx : Mux) (pattern : String) (handler : Handler) : Except String Mux :=
  if pattern.data.head? != some '/' then
    Except.error "chi: routing pattern must begin with a slash"
  else if !staticPattern pattern then
    Except.error "pattern with parameters: outside the model"
  else
    let built :=
      match mx.handler with
      | none => some (chain mx.middlewares Handler.routeHTTP)
      | some h => some h
    Except.ok
      { mx with
        handler := built
        tree := mx.tree.filter (fun rt => rt.pattern != pattern)
          ++ [{ methods := mALL, pattern := pattern, handler := handler }] }

/-- What serving one request shows: a middleware stage is entered, an endpoint
handler is invoked, or the router answers not found or method not allowed. -/
inductive Step
  | enter (m : Middleware)
  | endpoint (h : Handler)
  | notFound
  | methodNotAllowed

/-- Model of the route tree lookup FindRoute for static patterns: the route
whose pattern is the path and whose methods include the method. -/
def Mux.FindRoute (mx : Mux) (method : Method) (path : String) : Option Route :=
  mx.tree.find? (fun rt => rt.pattern == path && rt.methods.contains method)

/-- Model of Mux.routeHTTP: a request whose method token is not in methodMap is
answered method not allowed before any lookup; otherwise the endpoint of the
route found, and without one method not allowed when the path is known and not
found otherwise. -/
def Mux.routeHTTP (mx : Mux) (r : Request) : Step :=
  match methodMap r.Method with
  | none => Step.methodNotAllowed
  | some method =>
    match mx.FindRoute method r.Path with
    | some rt => Step.endpoint rt.handler
    | none =>
      if mx.tree.any (fun rt => rt.pattern == r.Path) then Step.methodNotAllowed
      else Step.notFound

/-- Whether a stage hands the request to the next handler: the request-id and
the two logging stages always do, the cors stage as its handler decides. -/
def callsNext : Middleware → Request → Bool
  | Middleware.corsHandler c, r => (c.Handler r).callsNext
  | _, _ => true

/-- The stages entered and the endpoint reached when a handler term serves a
request. The stages change only the request context, which neither the cors
stage nor the route dispatch reads, so the request is passed along as is. -/
def Mux.serve (mx : Mux) : Handler → Request → List Step
  | Handler.wrap m next, r =>
    Step.enter m :: (if callsNext m r then mx.serve next r else [])
  | Handler.routeHTTP, r => [mx.routeHTTP r]
  | h, _ => [Step.endpoint h]

/-- Model of Mux.ServeHTTP: not found while no handler has been computed. -/
def Mux.ServeHTTP (mx : Mux) (r : Request) : List Step :=
  match mx.handler with
  | none => [Step.notFound]
  | some h => mx.serve h r

/-! ## server.go: the router main builds -/

/-- The four arguments of r.Use in main, in source order. -/
def mainMiddlewares (logger : Logger) : List Middleware :=
  [Middleware.RequestID,
   Middleware.WithZap logger withRequestID,
   Middleware.Request Level.Info "request",
   corsMiddleware]

/-- The router statements of main: NewRouter, one Use, two Handle. -/
def buildRouter (logger : Logger) : Except String Mux := do
  let r := NewRouter
  let r ← r.Use (mainMiddlewares logger)
  let r ← r.Handle "/" (Handler.Playground "GraphQL playground" "/query")
  let r ← r.Handle "/query" Handler.GraphQL
  pure r

/-- The router calls of main one by one, to look at the states in between. -/
inductive RouterCall
  | Use (middlewares : List Middleware)
  | Handle (pattern : String) (handler : Handler)

/-- One router call applied to a mux. -/
def RouterCall.apply (mx : Mux) : RouterCall → Except String Mux
  | RouterCall.Use ms => mx.Use ms
  | RouterCall.Handle p h => mx.Handle p h

/-- The calls of buildRouter in source order. -/
def routerCalls (logger : Logger) : List RouterCall :=
  [RouterCall.Use (mainMiddlewares logger),
   RouterCall.Handle "/" (Handler.Playground "GraphQL playground" "/query"),
   RouterCall.Handle "/query" Handler.GraphQL]

/-- The mux after the given calls, starting from NewRouter. -/
def runCalls (calls : List RouterCall) : Except String Mux :=
  calls.foldlM RouterCall.apply NewRouter

/-! ## Signals, events, and the goroutines of main -/

/-- An operating-system signal, by its number (syscall.Signal). -/
structure Signal where
  num : Nat
  deriving DecidableEq, Repr

/-- Signal syscall.SIGINT. -/
def SIGINT : Signal := { num := 2 }

/-- Signal syscall.SIGTERM. -/
def SIGTERM : Signal := { num := 15 }

/-- Model of Signal.String for the two signals main formats; the names of the
other numbers are not listed, since no other signal is ever formatted. -/
def signalName (s : Signal) : String :=
  if s.num = 2 then "interrupt"
  else if s.num = 15 then "terminated"
  else "signal " ++ toString s.num

/-- What a goroutine of main does that can be seen from outside: a log record
(level, message, fields), a call into net/http or os/signal, the receive on the
channel sig, the deferred cancel, and the end of the process with its status. -/
inductive Event
  | log (level : Level) (msg : String) (fields : List Field)
  | ListenAndServe (addr : String)
  | Notify (sigs : List Signal)
  | recv (err : GoError)
  | Shutdown (timeout : Int)
  | cancel
  | exit (code : Nat)
  deriving DecidableEq, Repr

/-- A record written by a logger: its bound fields, then the fields given. -/
def Logger.record (l : Logger) (level : Level) (msg : String) (fields : List Field) : Event :=
  Event.log level msg (l.context ++ fields)

/-- Model of Logger.Fatal: writes the record, then calls os.Exit(1). -/
def Logger.Fatal (l : Logger) (msg : String) (fields : List Field) : List Event :=
  [l.record Level.Fatal msg fields, Event.exit 1]

/-- Model of http.Server as main fills it: address and handler. -/
structure Server where
  Addr : String
  Handler : Mux

/-- The if statement of the serving goroutine, on the error ListenAndServe
returned. -/
def listenResult (logger : Logger) (err : GoError) : List Event :=
  if err != GoError.ErrServerClosed then
    logger.Fatal "Listen failed" [zapError err]
  else
    []

/-- The serving goroutine of main: two Info records, ListenAndServe, and the
handling of the error it returns. -/
def serveGoroutine (logger : Logger) (port : String) (s : Server) (err : GoError) :
    List Event :=
  [logger.record Level.Info
      ("Connect to http://localhost:" ++ port ++ "/ for GraphQL playground") [],
   logger.record Level.Info "Listen and serve"
      [zapString "transport" "HTTP", zapString "port" port],
   Event.ListenAndServe s.Addr]
  ++ listenResult logger err

/-- The signals main passes to signal.Notify. -/
def notified : List Signal := [SIGINT, SIGTERM]

/-- The signal goroutine of main: of the signals the process is sent, only a
notified one arrives on the channel c, and it is sent on as the error
fmt.Errorf("%s", signal). Nothing is sent when no notified signal arrives. -/
def signalGoroutine (delivered : Option Signal) : Option GoError :=
  match delivered with
  | none => none
  | some sgn => if notified.contains sgn then some (GoError.other (signalName sgn)) else none

/-- Model of context.WithTimeout on the background context: only its timeout. -/
structure TimeoutCtx where
  timeout : Int
  deriving DecidableEq, Repr

/-- Lines 80 to 89 of main once a value has arrived on sig: the initiation
record, Shutdown under the timeout context, the error record when Shutdown
fails, the Exit record, the deferred cancel, and the return of main, which
ends the process with status 0. -/
def shutdownSequence (logger : Logger) (sig : GoError) (shutdownErr : GoError) :
    List Event :=
  let ctx : TimeoutCtx := { timeout := defaultGracefulTimeout }
  [logger.record Level.Info
      ("SIGNAL " ++ sig.Error ++ " received, then shutting down...")
      [zapDuration "timeout" defaultGracefulTimeout],
   Event.Shutdown ctx.timeout]
  ++ (if shutdownErr != GoError.nil then
        [logger.record Level.Error "Failed to gracefully shutdown" [zapError shutdownErr]]
      else [])
  ++ [logger.record Level.Info "Exit" [], Event.cancel, Event.exit 0]

/-- The main goroutine from the receive on sig onwards: blocked for good (no
event) while nothing arrives, else the receive and the shutdown sequence. -/
def mainFlow (logger : Logger) (arrived : Option GoError) (shutdownErr : GoError) :
    List Event :=
  match arrived with
  | none => []
  | some sig => Event.recv sig :: shutdownSequence logger sig shutdownErr

/-- What the surroundings decide in one run: the environment, the error
ListenAndServe returns, the signal the process is sent (if any) and the result
of Shutdown. -/
structure Run where
  env : Env
  listenErr : GoError
  delivered : Option Signal
  shutdownErr : GoError

/-- One run of main, goroutine by goroutine (their interleaving is not
modelled). -/
structure Execution where
  port : String
  server : Server
  serving : List Event
  signalling : List Event
  mainEvents : List Event

/-- Source function main. A panic of the router calls is the error case. -/
def main (run : Run) : Except String Execution := do
  let port := resolvePort run.env
  let logger := NewDevelopment
  let r ← buildRouter logger
  let s : Server := { Addr := ":" ++ port, Handler := r }
  let serving := serveGoroutine logger port s run.listenErr
  let sig := signalGoroutine run.delivered
  pure
    { port := port
      server := s
      serving := serving
      signalling := [Event.Notify notified]
      mainEvents := mainFlow logger sig run.shutdownErr }

/-! ## Readings of a run -/

/-- The mux buildRouter returns: the stack of four, the handler chained from
it, and the two routes. -/
def mainRouter (logger : Logger) : Mux :=
  { middlewares := mainMiddlewares logger
    handler := some (chain (mainMiddlewares logger) Handler.routeHTTP)
    tree :=
      [{ methods := mALL, pattern := "/",
         handler := Handler.Playground "GraphQL playground" "/query" },
       { methods := mALL, pattern := "/query", handler := Handler.GraphQL }] }

/-- The bind address of a run: the Addr of the server main builds. -/
def bindAddress (run : Run) : Except String String :=
  Except.map (fun ex => ex.server.Addr) (main run)

/-- The events of the serving goroutine of a run. -/
def servingEvents (run : Run) : Except String (List Event) :=
  Except.map Execution.serving (main run)

/-- The events of the main goroutine of a run from its wait on sig onwards. -/
def mainEvents (run : Run) : Except String (List Event) :=
  Except.map Execution.mainEvents (main run)

/-- A log record of the given level and message, whatever its fields. -/
def Event.isRecord (level : Level) (msg : String) : Event → Bool
  | Event.log l m _ => l == level && m == msg
  | _ => false

/-- A log record of any kind. -/
def Event.isLog : Event → Bool
  | Event.log _ _ _ => true
  | _ => false

/-- A call of Shutdown. -/
def Event.isShutdown : Event → Bool
  | Event.Shutdown _ => true
  | _ => false

/-- A receive on the channel sig. -/
def Event.isRecv : Event → Bool
  | Event.recv _ => true
  | _ => false

/-- The end of the process. -/
def Event.isExit : Event → Bool
  | Event.exit _ => true
  | _ => false

/-! ## Requests used as examples -/

/-- A request with an Origin header comes from a page of that origin. -/
def Request.hasOrigin (r : Request) : Bool := r.HeaderGet "Origin" != ""

/-- A request carries credentials when it has a Cookie or an Authorization
header. -/
def Request.hasCredentials (r : Request) : Bool :=
  r.HeaderGet "Cookie" != "" || r.HeaderGet "Authorization" != ""

/-- A GET of /query sent with a cookie from a page of http://evil.example. -/
def foreignRead : Request :=
  { Method := "GET"
    Path := "/query"
    Header := [("Origin", "http://evil.example"), ("Cookie", "session=1")]
    ctx := { values := [] } }

/-- A PUT of /query sent with a cookie from a page of http://localhost:8080. -/
def allowedPut : Request :=
  { Method := "PUT"
    Path := "/query"
    Header := [("Origin", "http://localhost:8080"), ("Cookie", "session=1")]
    ctx := { values := [] } }

/-- A preflight for a POST of /query from a page of http://localhost:8080,
sent with a cookie. -/
def allowedPreflight : Request :=
  { Method := "OPTIONS"
    Path := "/query"
    Header := [("Origin", "http://localhost:8080"), ("Cookie", "session=1"),
      ("Access-Control-Request-Method", "POST")]
    ctx := { values := [] } }

/-- A POST of the root path. -/
def rootPost : Request :=
  { Method := "POST", Path := "/", Header := [], ctx := { values := [] } }

/-- A request for /query with the method token FOO. -/
def fooQuery : Request :=
  { Method := "FOO", Path := "/query", Header := [], ctx := { values := [] } }

/-- A request for an unregistered path with the method token FOO. -/
def fooElsewhere : Request :=
  { Method := "FOO", Path := "/nope", Header := [], ctx := { values := [] } }


/-! ## Lemmas on the embedding -/

theorem length_beq_zero (s : String) : (s.length == 0) = true ↔ s = "" := by
  rw [beq_iff_eq]
  constructor
  · intro h
    cases s with
    | mk cs =>
      have hcs : cs = [] := List.length_eq_zero.mp h
      subst hcs
      rfl
  · intro h
    subst h
    rfl

theorem buildRouter_eq (logger : Logger) :
    buildRouter logger = Except.ok (mainRouter logger) := rfl

theorem main_eq (run : Run) :
    ∃ ex, main run = Except.ok ex
      ∧ ex.port = resolvePort run.env
      ∧ ex.server.Addr = ":" ++ resolvePort run.env
      ∧ ex.server.Handler = mainRouter NewDevelopment
      ∧ ex.serving
          = serveGoroutine NewDevelopment (resolvePort run.env) ex.server run.listenErr
      ∧ ex.mainEvents
          = mainFlow NewDevelopment (signalGoroutine run.delivered) run.shutdownErr :=
  ⟨_, rfl, rfl, rfl, rfl, rfl, rfl⟩

theorem bindAddress_eq (run : Run) :
    bindAddress run = Except.ok (":" ++ resolvePort run.env) := rfl

theorem servingEvents_eq (run : Run) :
    servingEvents run
      = Except.ok (serveGoroutine NewDevelopment (resolvePort run.env)
          { Addr := ":" ++ resolvePort run.env, Handler := mainRouter NewDevelopment }
          run.listenErr) := rfl

theorem mainEvents_eq (run : Run) :
    mainEvents run
      = Except.ok (mainFlow NewDevelopment (signalGoroutine run.delivered) run.shutdownErr) :=
  rfl

theorem resolvePort_of_empty (env : Env) (h : Getenv env "PORT" = "") :
    resolvePort env = "8080" := by
  simp [resolvePort, h, defaultPort]

theorem resolvePort_of_set (env : Env) (h : Getenv env "PORT" ≠ "") :
    resolvePort env = Getenv env "PORT" := by
  simp [resolvePort, h]

theorem Getenv_unset (env : Env) (key : String)
    (h : env.find? (fun kv => kv.1 == key) = none) : Getenv env key = "" := by
  simp [Getenv, h]

/-! ## C1: port resolution -/

/-- C1. The bind address of every run is ":" followed by the value of PORT
when that value is non-empty, and ":8080" when os.Getenv gives the empty
string, in particular when PORT is not in the environment; no PORT gives
":8080" and PORT=9999 gives ":9999"; two runs that agree on the value of PORT
have the same bind address, whatever else differs. -/
theorem bind_address_from_port (run : Run) :
    (Getenv run.env "PORT" ≠ "" →
        bindAddress run = Except.ok (":" ++ Getenv run.env "PORT"))
    ∧ (Getenv run.env "PORT" = "" → bindAddress run = Except.ok ":8080")
    ∧ (run.env.find? (fun kv => kv.1 == "PORT") = none →
        bindAddress run = Except.ok ":8080")
    ∧ (∀ le d se, bindAddress ⟨[], le, d, se⟩ = Except.ok ":8080")
    ∧ (∀ le d se, bindAddress ⟨[("PORT", "9999")], le, d, se⟩ = Except.ok ":9999")
    ∧ (∀ other : Run, Getenv other.env "PORT" = Getenv run.env "PORT" →
        bindAddress other = bindAddress run) := by
  refine ⟨?_, ?_, ?_, ?_, ?_, ?_⟩
  · intro h
    rw [bindAddress_eq, resolvePort_of_set _ h]
  · intro h
    rw [bindAddress_eq, resolvePort_of_empty _ h]
    rfl
  · intro h
    rw [bindAddress_eq, resolvePort_of_empty _ (Getenv_unset _ _ h)]
    rfl
  · intro le d se
    rfl
  · intro le d se
    rfl
  · intro other h
    rw [bindAddress_eq, bindAddress_eq]
    simp only [resolvePort, h]

/-! ## C2: withRequestID -/

/-- C2. For every logger and request: when the request context carries no
request identifier (GetReqID gives the empty string, as it does when nothing is
stored under the request-id key) withRequestID returns the logger it was given;
otherwise it returns that logger extended by exactly one field, the string
field "reqId" whose value is the identifier found in the context. -/
theorem withRequestID_field (logger : Logger) (r : Request) :
    (GetReqID r.ctx = "" → withRequestID logger r = logger)
    ∧ (r.ctx.Value CtxKey.RequestIDKey = none → withRequestID logger r = logger)
    ∧ (GetReqID r.ctx ≠ "" →
        withRequestID logger r = logger.With [zapString "reqId" (GetReqID r.ctx)]
        ∧ (withRequestID logger r).context
            = logger.context ++ [Field.str "reqId" (GetReqID r.ctx)])
    ∧ (∀ reqID, reqID ≠ "" → r.ctx.Value CtxKey.RequestIDKey = some (CtxValue.str reqID) →
        (withRequestID logger r).context = logger.context ++ [Field.str "reqId" reqID]) := by
  have hne : ∀ id : String, id ≠ "" → ¬ ((id.length == 0) = true) := fun id h h0 =>
    h ((length_beq_zero id).mp h0)
  have hset : GetReqID r.ctx ≠ "" →
      withRequestID logger r = logger.With [zapString "reqId" (GetReqID r.ctx)] := by
    intro h
    simp only [withRequestID, if_neg (hne _ h)]
  refine ⟨?_, ?_, ?_, ?_⟩
  · intro h
    simp [withRequestID, h]
  · intro h
    simp [withRequestID, GetReqID, h]
  · intro h
    refine ⟨hset h, ?_⟩
    rw [hset h]
    rfl
  · intro reqID hid hval
    have hget : GetReqID r.ctx = reqID := by simp [GetReqID, hval]
    rw [hset (by rw [hget]; exact hid), hget]
    rfl


/-! ## Lemmas on the goroutines -/

theorem listenResult_closed (logger : Logger) :
    listenResult logger GoError.ErrServerClosed = [] := rfl

theorem listenResult_fatal (logger : Logger) (err : GoError)
    (h : err ≠ GoError.ErrServerClosed) :
    listenResult logger err
      = [Event.log Level.Fatal "Listen failed" (logger.context ++ [Field.error "error" err]),
         Event.exit 1] := by
  simp [listenResult, h, Logger.Fatal, Logger.record, zapError]

theorem signalGoroutine_isSome (s : Signal) :
    (signalGoroutine (some s)).isSome = true ↔ s = SIGINT ∨ s = SIGTERM := by
  by_cases h : s = SIGINT ∨ s = SIGTERM
  · simp [signalGoroutine, notified, h]
  · have h1 : s ≠ SIGINT := fun e => h (Or.inl e)
    have h2 : s ≠ SIGTERM := fun e => h (Or.inr e)
    simp [signalGoroutine, notified, h1, h2]

theorem signalGoroutine_notified (s : Signal) (h : s = SIGINT ∨ s = SIGTERM) :
    signalGoroutine (some s) = some (GoError.other (signalName s)) := by
  rcases h with h | h <;> subst h <;> rfl

theorem shutdownSequence_shape (logger : Logger) (sig err : GoError) :
    shutdownSequence logger sig err
      = [Event.log Level.Info ("SIGNAL " ++ sig.Error ++ " received, then shutting down...")
            (logger.context ++ [Field.duration "timeout" defaultGracefulTimeout]),
          Event.Shutdown defaultGracefulTimeout]
        ++ (if err = GoError.nil then []
            else [Event.log Level.Error "Failed to gracefully shutdown"
                    (logger.context ++ [Field.error "error" err])])
        ++ [Event.log Level.Info "Exit" (logger.context ++ []), Event.cancel, Event.exit 0] := by
  by_cases h : err = GoError.nil
  · simp [shutdownSequence, h, Logger.record, zapDuration]
  · simp [shutdownSequence, h, Logger.record, zapDuration, zapError]

/-! ## C3: the error ListenAndServe returns -/

/-- C3. In every run the serving goroutine does, after ListenAndServe has
returned err, exactly this: when err is not http.ErrServerClosed it writes the
Fatal record "Listen failed" with the error and ends the process with status
1, and when err is http.ErrServerClosed it writes nothing and ends nothing.
The fatal path is taken if and only if err is not http.ErrServerClosed, and
nothing before the return of ListenAndServe is fatal. -/
theorem listen_error_handling (run : Run) :
    ∃ startup,
      servingEvents run
        = Except.ok (startup ++ listenResult NewDevelopment run.listenErr)
      ∧ startup.getLast? = some (Event.ListenAndServe (":" ++ resolvePort run.env))
      ∧ (∀ e ∈ startup, e.isExit = false ∧ e.isRecord Level.Fatal "Listen failed" = false)
      ∧ (listenResult NewDevelopment run.listenErr
            = [Event.log Level.Fatal "Listen failed" [Field.error "error" run.listenErr],
               Event.exit 1]
          ↔ run.listenErr ≠ GoError.ErrServerClosed)
      ∧ (Event.exit 1 ∈ listenResult NewDevelopment run.listenErr
          ↔ run.listenErr ≠ GoError.ErrServerClosed)
      ∧ (run.listenErr = GoError.ErrServerClosed →
          listenResult NewDevelopment run.listenErr = []) := by
  refine ⟨_, servingEvents_eq run, rfl, ?_, ?_, ?_, ?_⟩
  · intro e he
    simp only [List.mem_cons, List.mem_singleton, List.not_mem_nil, or_false] at he
    rcases he with he | he | he <;> subst he <;> exact ⟨rfl, rfl⟩
  · constructor
    · intro h hc
      rw [hc, listenResult_closed] at h
      exact List.noConfusion h
    · intro h
      rw [listenResult_fatal _ _ h]
      rfl
  · constructor
    · intro h hc
      rw [hc, listenResult_closed] at h
      exact List.not_mem_nil _ h
    · intro h
      rw [listenResult_fatal _ _ h]
      simp
  · intro h
    rw [h, listenResult_closed]

/-! ## C4: the result of Shutdown -/

/-- C4. In every run in which a signal reaches main, the events of main are the
receive, the initiation record, one call of Shutdown, then the Error record
"Failed to gracefully shutdown" exactly once when Shutdown returned a non-nil
error and not at all when it returned nil, then the Info record "Exit", the
deferred cancel and the return of main with status 0. So the exit status is 0
for a clean and for a failed shutdown alike, and Shutdown is called once only. -/
theorem shutdown_outcome_handling (run : Run) :
    ∃ t, mainEvents run = Except.ok t
      ∧ ∀ sig, signalGoroutine run.delivered = some sig →
          t = [Event.recv sig,
                Event.log Level.Info
                  ("SIGNAL " ++ sig.Error ++ " received, then shutting down...")
                  [Field.duration "timeout" defaultGracefulTimeout],
                Event.Shutdown defaultGracefulTimeout]
              ++ (if run.shutdownErr = GoError.nil then []
                  else [Event.log Level.Error "Failed to gracefully shutdown"
                          [Field.error "error" run.shutdownErr]])
              ++ [Event.log Level.Info "Exit" [], Event.cancel, Event.exit 0]
          ∧ t.countP (Event.isRecord Level.Error "Failed to gracefully shutdown")
              = (if run.shutdownErr = GoError.nil then 0 else 1)
          ∧ t.countP Event.isShutdown = 1
          ∧ t.countP Event.isExit = 1
          ∧ (∀ c, Event.exit c ∈ t → c = 0) := by
  refine ⟨_, mainEvents_eq run, ?_⟩
  intro sig hsig
  rw [hsig]
  have hshape : mainFlow NewDevelopment (some sig) run.shutdownErr
      = [Event.recv sig,
          Event.log Level.Info
            ("SIGNAL " ++ sig.Error ++ " received, then shutting down...")
            [Field.duration "timeout" defaultGracefulTimeout],
          Event.Shutdown defaultGracefulTimeout]
        ++ (if run.shutdownErr = GoError.nil then []
            else [Event.log Level.Error "Failed to gracefully shutdown"
                    [Field.error "error" run.shutdownErr]])
        ++ [Event.log Level.Info "Exit" [], Event.cancel, Event.exit 0] := by
    simp only [mainFlow, shutdownSequence_shape]
    rfl
  refine ⟨hshape, ?_⟩
  rw [hshape]
  by_cases h : run.shutdownErr = GoError.nil
  · simp [h, Event.isRecord, Event.isShutdown, Event.isExit]
  · simp [h, Event.isRecord, Event.isShutdown, Event.isExit]


/-! ## C8: the two signals -/

/-- C8. The signals handed to signal.Notify are SIGINT and SIGTERM in every
run, and a
signal sent to the process unblocks main if and only if it is one of the two.
Two runs that differ only in which of the two signals is sent perform the same
events: after the receive and the initiation record, whose message names the
signal ("interrupt" or "terminated"), the rest of the run, with its Shutdown
call under the grace period, is one and the same list. -/
theorem signals_trigger_same_shutdown :
    (∀ run : Run, Except.map Execution.signalling (main run)
        = Except.ok [Event.Notify [SIGINT, SIGTERM]])
    ∧ (∀ s : Signal, (signalGoroutine (some s)).isSome = true ↔ s = SIGINT ∨ s = SIGTERM)
    ∧ (∀ run : Run, mainEvents run ≠ Except.ok []
        ↔ run.delivered = some SIGINT ∨ run.delivered = some SIGTERM)
    ∧ (∀ env le se, ∃ rest,
        Event.Shutdown defaultGracefulTimeout ∈ rest
        ∧ ∀ s, s = SIGINT ∨ s = SIGTERM →
          mainEvents ⟨env, le, some s, se⟩
            = Except.ok
                (Event.recv (GoError.other (signalName s))
                  :: Event.log Level.Info
                      ("SIGNAL " ++ signalName s ++ " received, then shutting down...")
                      [Field.duration "timeout" defaultGracefulTimeout]
                  :: rest))
    ∧ signalName SIGINT = "interrupt"
    ∧ signalName SIGTERM = "terminated" := by
  refine ⟨fun _ => rfl, signalGoroutine_isSome, ?_, ?_, rfl, rfl⟩
  · intro run
    rw [mainEvents_eq]
    cases hd : run.delivered with
    | none => simp [signalGoroutine, mainFlow]
    | some s =>
      have hs := signalGoroutine_isSome s
      cases hg : signalGoroutine (some s) with
      | none =>
        rw [hg] at hs
        have hno : ¬ (s = SIGINT ∨ s = SIGTERM) := fun h => by simpa using hs.mpr h
        have h1 : s ≠ SIGINT := fun e => hno (Or.inl e)
        have h2 : s ≠ SIGTERM := fun e => hno (Or.inr e)
        simp [mainFlow, h1, h2]
      | some sig =>
        rw [hg] at hs
        have hyes : s = SIGINT ∨ s = SIGTERM := hs.mp rfl
        simp [mainFlow, hyes]
  · intro env le se
    refine ⟨Event.Shutdown defaultGracefulTimeout
        :: ((if se = GoError.nil then []
             else [Event.log Level.Error "Failed to gracefully shutdown"
                     [Field.error "error" se]])
            ++ [Event.log Level.Info "Exit" [], Event.cancel, Event.exit 0]),
      List.mem_cons_self _ _, ?_⟩
    intro s hs
    rw [mainEvents_eq]
    simp only [signalGoroutine_notified s hs, mainFlow, shutdownSequence_shape]
    rfl

/-! ## C9: the order of the shutdown steps -/

/-- C9. In every run the events of main from its wait on sig onwards satisfy:
no Shutdown call comes before a receive on sig, and without a value on sig
there is no event at all; once a value is received the events are, in this
order, the initiation record naming the signal with the field timeout equal to
the grace period, one Shutdown call under that same grace period, what the
outcome of Shutdown adds (no further Shutdown, no further receive), and the
"Exit" record; the grace period is 60 seconds. -/
theorem shutdown_sequencing (run : Run) :
    ∃ t, mainEvents run = Except.ok t
      ∧ (∀ pre d post, t = pre ++ Event.Shutdown d :: post → ∃ sig, Event.recv sig ∈ pre)
      ∧ (signalGoroutine run.delivered = none → t = [])
      ∧ (∀ sig, signalGoroutine run.delivered = some sig →
          ∃ outcome,
            t = [Event.recv sig,
                  Event.log Level.Info
                    ("SIGNAL " ++ sig.Error ++ " received, then shutting down...")
                    [Field.duration "timeout" defaultGracefulTimeout],
                  Event.Shutdown defaultGracefulTimeout]
                ++ outcome
                ++ [Event.log Level.Info "Exit" [], Event.cancel, Event.exit 0]
            ∧ outcome.countP Event.isShutdown = 0
            ∧ outcome.countP Event.isRecv = 0)
      ∧ t.countP Event.isShutdown ≤ 1
      ∧ t.countP Event.isRecv ≤ 1
      ∧ defaultGracefulTimeout = 60 * 1000000000 := by
  refine ⟨_, mainEvents_eq run, ?_, ?_, ?_, ?_, ?_, rfl⟩
  · intro pre d post h
    cases hg : signalGoroutine run.delivered with
    | none =>
      rw [hg] at h
      cases pre <;> simp [mainFlow] at h
    | some sig =>
      rw [hg] at h
      cases pre with
      | nil => simp [mainFlow] at h
      | cons e pre =>
        refine ⟨sig, ?_⟩
        simp only [mainFlow, List.cons_append, List.cons.injEq] at h
        rw [← h.1]
        exact List.mem_cons_self _ _
  · intro h
    rw [h]
    rfl
  · intro sig h
    rw [h]
    refine ⟨if run.shutdownErr = GoError.nil then []
        else [Event.log Level.Error "Failed to gracefully shutdown"
                [Field.error "error" run.shutdownErr]], ?_, ?_, ?_⟩
    · simp only [mainFlow, shutdownSequence_shape]
      rfl
    · by_cases he : run.shutdownErr = GoError.nil <;> simp [he, Event.isShutdown]
    · by_cases he : run.shutdownErr = GoError.nil <;> simp [he, Event.isRecv]
  · cases hg : signalGoroutine run.delivered with
    | none => simp [mainFlow]
    | some sig =>
      simp only [mainFlow, shutdownSequence_shape]
      by_cases he : run.shutdownErr = GoError.nil <;> simp [he, Event.isShutdown]
  · cases hg : signalGoroutine run.delivered with
    | none => simp [mainFlow]
    | some sig =>
      simp only [mainFlow, shutdownSequence_shape]
      by_cases he : run.shutdownErr = GoError.nil <;> simp [he, Event.isRecv]


/-! ## Lemmas on the router and the cors stage -/

theorem mem_mALL (m : Method) : m ∈ mALL := by
  cases m <;> simp [mALL]

theorem methodMap_name (m : Method) : methodMap m.name = some m := by
  cases m <;> rfl

theorem methodMap_isSome_iff (token : String) :
    methodMap token ≠ none
      ↔ token ∈ ["CONNECT", "DELETE", "GET", "HEAD", "OPTIONS", "PATCH", "POST", "PUT",
          "TRACE"] := by
  unfold methodMap
  constructor
  · intro h
    by_contra hn
    simp only [List.mem_cons, List.mem_singleton, List.not_mem_nil, or_false, not_or] at hn
    obtain ⟨h1, h2, h3, h4, h5, h6, h7, h8, h9⟩ := hn
    simp [h1, h2, h3, h4, h5, h6, h7, h8, h9] at h
  · intro h
    simp only [List.mem_cons, List.mem_singleton, List.not_mem_nil, or_false] at h
    rcases h with h | h | h | h | h | h | h | h | h <;> subst h <;> decide

theorem mainRouter_route (logger : Logger) (r : Request) :
    (mainRouter logger).routeHTTP r
      = if methodMap r.Method = none then Step.methodNotAllowed
        else if r.Path = "/" then
          Step.endpoint (Handler.Playground "GraphQL playground" "/query")
        else if r.Path = "/query" then Step.endpoint Handler.GraphQL
        else Step.notFound := by
  obtain ⟨m, p, hd, c⟩ := r
  cases hm : methodMap m with
  | none => simp [Mux.routeHTTP, hm]
  | some method =>
    by_cases h1 : p = "/"
    · subst h1
      simp [Mux.routeHTTP, Mux.FindRoute, hm, mainRouter, List.find?, mem_mALL]
    · by_cases h2 : p = "/query"
      · subst h2
        simp [Mux.routeHTTP, Mux.FindRoute, hm, mainRouter, List.find?, mem_mALL]
      · have h1' : ¬ ("/" = p) := fun e => h1 e.symm
        have h2' : ¬ ("/query" = p) := fun e => h2 e.symm
        simp [Mux.routeHTTP, Mux.FindRoute, hm, mainRouter, h1, h2, h1', h2']

theorem corsNew_corsOptions :
    corsNew corsOptions
      = { allowedOrigins := ["http://localhost:8080"]
          allowedWOrigins := []
          allowedOriginsAll := false
          allowedHeaders := ["Origin", "Accept", "Content-Type", "X-Requested-With"]
          allowedHeadersAll := false
          allowedMethods := ["GET", "POST", "HEAD"]
          allowCredentials := true
          optionPassthrough := false } := by
  decide

theorem callsNext_cors (r : Request) :
    callsNext corsMiddleware r = !isPreflight r := by
  simp only [callsNext, corsMiddleware, corsNew_corsOptions, Cors.Handler]
  cases isPreflight r <;> rfl

theorem mainRouter_serve (logger : Logger) (r : Request) :
    (mainRouter logger).ServeHTTP r
      = Step.enter Middleware.RequestID
        :: Step.enter (Middleware.WithZap logger withRequestID)
        :: Step.enter (Middleware.Request Level.Info "request")
        :: Step.enter corsMiddleware
        :: (if isPreflight r then [] else [(mainRouter logger).routeHTTP r]) := by
  have h := callsNext_cors r
  simp only [Mux.ServeHTTP, mainRouter, mainMiddlewares, chain, List.foldr, Mux.serve,
    callsNext, if_true]
  simp only [callsNext] at h
  cases hp : isPreflight r
  · rw [hp] at h
    simp [h, Mux.serve]
  · rw [hp] at h
    simp [h]

theorem ToLower_empty_ne : ToLower "" ≠ "http://localhost:8080" := by
  decide

theorem isOriginAllowed_iff (origin : String) :
    (corsNew corsOptions).isOriginAllowed origin = true
      ↔ ToLower origin = "http://localhost:8080" := by
  rw [corsNew_corsOptions]
  simp [Cors.isOriginAllowed, eq_comm]

theorem isMethodAllowed_iff (method : String) :
    (corsNew corsOptions).isMethodAllowed method = true
      ↔ (ToUpper method = "OPTIONS" ∨ ToUpper method = "GET" ∨ ToUpper method = "POST"
          ∨ ToUpper method = "HEAD") := by
  rw [corsNew_corsOptions]
  simp only [Cors.isMethodAllowed]
  generalize ToUpper method = u
  by_cases h0 : u = "OPTIONS"
  · subst h0
    decide
  · by_cases h1 : u = "GET"
    · subst h1
      decide
    · by_cases h2 : u = "POST"
      · subst h2
        decide
      · by_cases h3 : u = "HEAD"
        · subst h3
          decide
        · have h1' : ¬ ("GET" = u) := fun e => h1 e.symm
          have h2' : ¬ ("POST" = u) := fun e => h2 e.symm
          have h3' : ¬ ("HEAD" = u) := fun e => h3 e.symm
          simp [h0, h1, h2, h3, h1', h2', h3']

theorem handleActualRequest_eq (r : Request) :
    (corsNew corsOptions).handleActualRequest r
      = if r.Method ≠ "OPTIONS" ∧ ToLower (r.HeaderGet "Origin") = "http://localhost:8080"
            ∧ (ToUpper r.Method = "OPTIONS" ∨ ToUpper r.Method = "GET"
                ∨ ToUpper r.Method = "POST" ∨ ToUpper r.Method = "HEAD") then
          [("Access-Control-Allow-Origin", r.HeaderGet "Origin"),
           ("Access-Control-Allow-Credentials", "true")]
        else [] := by
  have ho := isOriginAllowed_iff (r.HeaderGet "Origin")
  have hm := isMethodAllowed_iff r.Method
  by_cases h1 : r.Method = "OPTIONS"
  · simp [Cors.handleActualRequest, h1]
  · by_cases h2 : r.HeaderGet "Origin" = ""
    · have : ToLower (r.HeaderGet "Origin") ≠ "http://localhost:8080" := by
        rw [h2]
        exact ToLower_empty_ne
      rw [if_neg (fun h => this h.2.1)]
      simp [Cors.handleActualRequest, h1, h2]
    · by_cases h3 : (corsNew corsOptions).isOriginAllowed (r.HeaderGet "Origin") = true
      · by_cases h4 : (corsNew corsOptions).isMethodAllowed r.Method = true
        · have h5 : (corsNew corsOptions).allowedOriginsAll = false := by decide
          have h6 : (corsNew corsOptions).allowCredentials = true := by decide
          rw [if_pos ⟨h1, ho.mp h3, hm.mp h4⟩]
          simp [Cors.handleActualRequest, h1, h2, h3, h4, h5, h6]
        · rw [if_neg (fun h => h4 (hm.mpr h.2.2))]
          simp [Cors.handleActualRequest, h1, h2, h3, h4]
      · rw [if_neg (fun h => h3 (ho.mpr h.2.1))]
        simp [Cors.handleActualRequest, h1, h2, h3]

theorem handlePreflight_foreign (r : Request)
    (h : ToLower (r.HeaderGet "Origin") ≠ "http://localhost:8080") :
    (corsNew corsOptions).handlePreflight r = [] := by
  have h3 : ¬ (corsNew corsOptions).isOriginAllowed (r.HeaderGet "Origin") = true :=
    fun e => h ((isOriginAllowed_iff _).mp e)
  by_cases h1 : r.Method = "OPTIONS"
  · by_cases h2 : r.HeaderGet "Origin" = ""
    · simp [Cors.handlePreflight, h1, h2]
    · simp [Cors.handlePreflight, h1, h2, h3]
  · simp [Cors.handlePreflight, h1]

theorem handlePreflight_method (r : Request)
    (h : ¬ (ToUpper (r.HeaderGet "Access-Control-Request-Method") = "OPTIONS"
          ∨ ToUpper (r.HeaderGet "Access-Control-Request-Method") = "GET"
          ∨ ToUpper (r.HeaderGet "Access-Control-Request-Method") = "POST"
          ∨ ToUpper (r.HeaderGet "Access-Control-Request-Method") = "HEAD")) :
    (corsNew corsOptions).handlePreflight r = [] := by
  have h4 : ¬ (corsNew corsOptions).isMethodAllowed
      (r.HeaderGet "Access-Control-Request-Method") = true :=
    fun e => h ((isMethodAllowed_iff _).mp e)
  by_cases h1 : r.Method = "OPTIONS"
  · by_cases h2 : r.HeaderGet "Origin" = ""
    · simp [Cors.handlePreflight, h1, h2]
    · by_cases h3 : (corsNew corsOptions).isOriginAllowed (r.HeaderGet "Origin") = true
      · simp [Cors.handlePreflight, h1, h2, h3, h4]
      · simp [Cors.handlePreflight, h1, h2, h3]
  · simp [Cors.handlePreflight, h1]

theorem handlePreflight_allowed (r : Request) (h1 : r.Method = "OPTIONS")
    (ho : r.HeaderGet "Origin" = "http://localhost:8080")
    (hm : r.HeaderGet "Access-Control-Request-Method" = "GET"
        ∨ r.HeaderGet "Access-Control-Request-Method" = "POST"
        ∨ r.HeaderGet "Access-Control-Request-Method" = "HEAD")
    (hh : r.HeaderGet "Access-Control-Request-Headers" = "") :
    (corsNew corsOptions).handlePreflight r
      = [("Access-Control-Allow-Origin", "http://localhost:8080"),
         ("Access-Control-Allow-Methods", r.HeaderGet "Access-Control-Request-Method"),
         ("Access-Control-Allow-Credentials", "true")] := by
  rw [corsNew_corsOptions]
  rcases hm with hm | hm | hm
  · simp only [Cors.handlePreflight, h1, ho, hm, hh]
    decide
  · simp only [Cors.handlePreflight, h1, ho, hm, hh]
    decide
  · simp only [Cors.handlePreflight, h1, ho, hm, hh]
    decide

theorem isPreflight_of_method (r : Request) (h : r.Method ≠ "OPTIONS") :
    isPreflight r = false := by
  simp [isPreflight, h]

theorem isPreflight_method (r : Request) (h : isPreflight r = true) :
    r.Method = "OPTIONS" := by
  simp only [isPreflight, Bool.and_eq_true, beq_iff_eq] at h
  exact h.1

/-! ## C5: the middleware chain -/

/-- C5. The middleware stack of the router main builds is exactly the four
stages request-id, logger binding with withRequestID, access logging at Info
level, cors, in this order. It is complete after the first router call, when no
route is registered yet, and it is the same list after every later call; a
further Use after the routes would panic. The handler of the router wraps the
route dispatch, and so every routed handler, in all four, the request-id stage
outermost, and serving any request enters the four stages in that order before
anything else happens. -/
theorem middleware_chain_assembly (logger : Logger) :
    Except.map Mux.middlewares (buildRouter logger)
        = Except.ok [Middleware.RequestID, Middleware.WithZap logger withRequestID,
            Middleware.Request Level.Info "request",
            Middleware.corsHandler (corsNew corsOptions)]
    ∧ runCalls (routerCalls logger) = buildRouter logger
    ∧ Except.map (fun mx => mx.tree.length) (runCalls ((routerCalls logger).take 1))
        = Except.ok 0
    ∧ (∀ n, 1 ≤ n →
        Except.map Mux.middlewares (runCalls ((routerCalls logger).take n))
          = Except.map Mux.middlewares (buildRouter logger))
    ∧ Except.map Mux.handler (buildRouter logger)
        = Except.ok (some
            (Handler.wrap Middleware.RequestID
              (Handler.wrap (Middleware.WithZap logger withRequestID)
                (Handler.wrap (Middleware.Request Level.Info "request")
                  (Handler.wrap (Middleware.corsHandler (corsNew corsOptions))
                    Handler.routeHTTP)))))
    ∧ (∀ r : Request, ∃ rest,
        Except.map (fun mx => mx.ServeHTTP r) (buildRouter logger)
          = Except.ok
              (Step.enter Middleware.RequestID
                :: Step.enter (Middleware.WithZap logger withRequestID)
                :: Step.enter (Middleware.Request Level.Info "request")
                :: Step.enter (Middleware.corsHandler (corsNew corsOptions))
                :: rest)
        ∧ ∀ m, rest ≠ [Step.enter m] ∧ rest.length ≤ 1)
    ∧ (∀ ms, (buildRouter logger >>= fun mx => mx.Use ms)
        = Except.error "chi: all middlewares must be defined before routes on a mux")
    ∧ (∀ run : Run, Except.map (fun ex => ex.server.Handler.middlewares) (main run)
        = Except.map Mux.middlewares (buildRouter NewDevelopment)) := by
  refine ⟨rfl, rfl, rfl, ?_, rfl, ?_, fun _ => rfl, fun _ => rfl⟩
  · intro n hn
    match n, hn with
    | 1, _ => rfl
    | 2, _ => rfl
    | n + 3, _ =>
      have : (routerCalls logger).take (n + 3) = routerCalls logger := by
        simp [routerCalls]
      rw [this]
      rfl
  · intro r
    refine ⟨if isPreflight r then [] else [(mainRouter logger).routeHTTP r], ?_, ?_⟩
    · rw [buildRouter_eq]
      exact congrArg Except.ok (mainRouter_serve logger r)
    · intro m
      cases hp : isPreflight r
      · rw [mainRouter_route]
        refine ⟨?_, by simp⟩
        by_cases h0 : methodMap r.Method = none
        · simp [h0]
        · by_cases h1 : r.Path = "/"
          · simp [h0, h1]
          · by_cases h2 : r.Path = "/query" <;> simp [h0, h1, h2]
      · simp


/-! ## C6: the route table -/

/-- C6, as stated, fails in three places: a POST of the root path is routed to
the playground handler, so the root route is not a GET route; a request for
/query whose method token is not in the method map of the router (FOO) is not
routed to the GraphQL handler but answered method not allowed; and such a
request for an unregistered path is answered method not allowed, not not
found. -/
theorem root_route_answers_post :
    rootPost.Method = "POST"
    ∧ rootPost.Path = "/"
    ∧ Except.map (fun mx => mx.routeHTTP rootPost) (buildRouter NewDevelopment)
        = Except.ok (Step.endpoint (Handler.Playground "GraphQL playground" "/query"))
    ∧ ¬ (∀ r : Request,
          Except.map (fun mx => mx.routeHTTP r) (buildRouter NewDevelopment)
              = Except.ok (Step.endpoint (Handler.Playground "GraphQL playground" "/query")) →
            r.Method = "GET")
    ∧ fooQuery.Path = "/query"
    ∧ Except.map (fun mx => mx.routeHTTP fooQuery) (buildRouter NewDevelopment)
        = Except.ok Step.methodNotAllowed
    ∧ fooElsewhere.Path ≠ "/" ∧ fooElsewhere.Path ≠ "/query"
    ∧ Except.map (fun mx => mx.routeHTTP fooElsewhere) (buildRouter NewDevelopment)
        = Except.ok Step.methodNotAllowed := by
  refine ⟨rfl, rfl, rfl, ?_, rfl, rfl, by decide, by decide, rfl⟩
  intro h
  have hpost : rootPost.Method = "GET" := h rootPost rfl
  exact absurd hpost (by decide)

/-- C6, amended. The router main builds has exactly two routes, each registered
for every method of the router's method map (CONNECT, DELETE, GET, HEAD,
OPTIONS, PATCH, POST, PUT, TRACE): the root path mapped to the playground
handler and /query mapped to the GraphQL handler. A request with one of these
methods is routed to the playground when its path is the root path, to the
GraphQL handler when its path is /query, and selects no registered handler and
is answered not found when its path is neither. A request with any other method
token selects no registered handler, whatever its path, and is answered method
not allowed. -/
theorem route_table (logger : Logger) :
    Except.map (fun mx => mx.tree.map (fun rt => (rt.methods, rt.pattern)))
        (buildRouter logger)
      = Except.ok [(mALL, "/"), (mALL, "/query")]
    ∧ Except.map (fun mx => mx.tree.map Route.handler) (buildRouter logger)
      = Except.ok [Handler.Playground "GraphQL playground" "/query", Handler.GraphQL]
    ∧ (∀ m : Method, m ∈ mALL ∧ methodMap m.name = some m)
    ∧ (∀ token : String, methodMap token ≠ none
        ↔ token ∈ ["CONNECT", "DELETE", "GET", "HEAD", "OPTIONS", "PATCH", "POST", "PUT",
            "TRACE"])
    ∧ (∀ r : Request, methodMap r.Method ≠ none → r.Path = "/" →
        Except.map (fun mx => mx.routeHTTP r) (buildRouter logger)
          = Except.ok (Step.endpoint (Handler.Playground "GraphQL playground" "/query")))
    ∧ (∀ r : Request, methodMap r.Method ≠ none → r.Path = "/query" →
        Except.map (fun mx => mx.routeHTTP r) (buildRouter logger)
          = Except.ok (Step.endpoint Handler.GraphQL))
    ∧ (∀ r : Request, methodMap r.Method ≠ none → r.Path ≠ "/" → r.Path ≠ "/query" →
        Except.map (fun mx => mx.routeHTTP r) (buildRouter logger)
          = Except.ok Step.notFound)
    ∧ (∀ r : Request, methodMap r.Method = none →
        Except.map (fun mx => mx.routeHTTP r) (buildRouter logger)
          = Except.ok Step.methodNotAllowed)
    ∧ (∀ run : Run, Except.map (fun ex => ex.server.Handler.tree.map Route.pattern) (main run)
        = Except.ok ["/", "/query"]) := by
  have hroute : ∀ r : Request,
      Except.map (fun mx => mx.routeHTTP r) (buildRouter logger)
        = Except.ok ((mainRouter logger).routeHTTP r) := by
    intro r
    rw [buildRouter_eq]
    rfl
  refine ⟨rfl, rfl, fun m => ⟨mem_mALL m, methodMap_name m⟩, methodMap_isSome_iff,
    ?_, ?_, ?_, ?_, fun _ => rfl⟩
  · intro r h0 h
    rw [hroute, mainRouter_route, if_neg h0, if_pos h]
  · intro r h0 h
    have h1 : r.Path ≠ "/" := by
      rw [h]
      decide
    rw [hroute, mainRouter_route, if_neg h0, if_neg h1, if_pos h]
  · intro r h0 h1 h2
    rw [hroute, mainRouter_route, if_neg h0, if_neg h1, if_neg h2]
  · intro r h0
    rw [hroute, mainRouter_route, if_pos h0]

/-! ## C7: the cors stage -/

/-- C7, as stated, fails in both halves. A GET of /query that carries a cookie
and the Origin http://evil.example, which is not in the allow-list, is handed
on by the cors stage and the GraphQL handler is invoked for it. A PUT of /query
that carries a cookie and the Origin http://localhost:8080 reaches the GraphQL
handler, but no Access-Control header is added to its response. A preflight
that carries a cookie and the Origin http://localhost:8080 is answered by the
cors stage and no routed handler is invoked for it. -/
theorem foreign_credentialed_request_is_served :
    (foreignRead.hasOrigin = true
      ∧ foreignRead.HeaderGet "Origin" = "http://evil.example"
      ∧ corsOptions.AllowedOrigins = ["http://localhost:8080"]
      ∧ (corsNew corsOptions).isOriginAllowed "http://evil.example" = false
      ∧ foreignRead.hasCredentials = true
      ∧ callsNext corsMiddleware foreignRead = true
      ∧ Except.map (fun mx => mx.ServeHTTP foreignRead) (buildRouter NewDevelopment)
          = Except.ok
              [Step.enter Middleware.RequestID,
               Step.enter (Middleware.WithZap NewDevelopment withRequestID),
               Step.enter (Middleware.Request Level.Info "request"),
               Step.enter corsMiddleware,
               Step.endpoint Handler.GraphQL])
    ∧ (allowedPut.HeaderGet "Origin" = "http://localhost:8080"
      ∧ allowedPut.hasCredentials = true
      ∧ isPreflight allowedPut = false
      ∧ ((corsNew corsOptions).Handler allowedPut).added = []
      ∧ Except.map (fun mx => mx.ServeHTTP allowedPut) (buildRouter NewDevelopment)
          = Except.ok
              [Step.enter Middleware.RequestID,
               Step.enter (Middleware.WithZap NewDevelopment withRequestID),
               Step.enter (Middleware.Request Level.Info "request"),
               Step.enter corsMiddleware,
               Step.endpoint Handler.GraphQL])
    ∧ (allowedPreflight.HeaderGet "Origin" = "http://localhost:8080"
      ∧ allowedPreflight.hasCredentials = true
      ∧ isPreflight allowedPreflight = true
      ∧ ((corsNew corsOptions).Handler allowedPreflight).added
          = [("Access-Control-Allow-Origin", "http://localhost:8080"),
             ("Access-Control-Allow-Methods", "POST"),
             ("Access-Control-Allow-Credentials", "true")]
      ∧ Except.map (fun mx => mx.ServeHTTP allowedPreflight) (buildRouter NewDevelopment)
          = Except.ok
              [Step.enter Middleware.RequestID,
               Step.enter (Middleware.WithZap NewDevelopment withRequestID),
               Step.enter (Middleware.Request Level.Info "request"),
               Step.enter corsMiddleware]) := by
  refine ⟨⟨by decide, by decide, rfl, by decide, by decide, by decide, rfl⟩,
    ⟨by decide, by decide, by decide, by decide, rfl⟩,
    ⟨by decide, by decide, by decide, by decide, rfl⟩⟩

/-- C7, amended. With the allow-list http://localhost:8080 and credentials
allowed, the cors stage rejects no request that is not a preflight: whatever
its Origin and whether or not it carries credentials, such a request is handed
on to the route dispatch, and a request for /query with a method of the router
reaches the GraphQL handler. What the allow-list decides is the response
headers. To a request that is not a preflight the stage adds
Access-Control-Allow-Origin with the Origin sent and
Access-Control-Allow-Credentials true exactly when the Origin is, letter case
aside, http://localhost:8080 and the method is, letter case aside, GET, POST or
HEAD (or a spelling of OPTIONS other than OPTIONS itself); otherwise it adds no
Access-Control header. A preflight (OPTIONS carrying
Access-Control-Request-Method) is answered by the stage itself and reaches no
routed handler, whatever its Origin; the answer carries no Access-Control
header when the Origin is not http://localhost:8080 or the requested method is
none of GET, POST, HEAD and OPTIONS (letter case aside), and it carries
Access-Control-Allow-Origin http://localhost:8080, Access-Control-Allow-Methods
and Access-Control-Allow-Credentials true when the Origin is
http://localhost:8080, the requested method is GET, POST or HEAD and no request
header is asked for. -/
theorem cors_stage_behaviour (logger : Logger) (r : Request) :
    (isPreflight r = false →
        callsNext corsMiddleware r = true
        ∧ Except.map (fun mx => mx.ServeHTTP r) (buildRouter logger)
            = Except.ok
                [Step.enter Middleware.RequestID,
                 Step.enter (Middleware.WithZap logger withRequestID),
                 Step.enter (Middleware.Request Level.Info "request"),
                 Step.enter corsMiddleware,
                 (mainRouter logger).routeHTTP r])
    ∧ (isPreflight r = false → methodMap r.Method ≠ none → r.Path = "/query" →
        ∃ stages, Except.map (fun mx => mx.ServeHTTP r) (buildRouter logger)
            = Except.ok (stages ++ [Step.endpoint Handler.GraphQL]))
    ∧ (isPreflight r = false →
        ((corsNew corsOptions).Handler r).added
          = if r.Method ≠ "OPTIONS"
                ∧ ToLower (r.HeaderGet "Origin") = "http://localhost:8080"
                ∧ (ToUpper r.Method = "OPTIONS" ∨ ToUpper r.Method = "GET"
                    ∨ ToUpper r.Method = "POST" ∨ ToUpper r.Method = "HEAD") then
              [("Access-Control-Allow-Origin", r.HeaderGet "Origin"),
               ("Access-Control-Allow-Credentials", "true")]
            else [])
    ∧ (r.HeaderGet "Origin" = "http://localhost:8080" →
        r.Method = "GET" ∨ r.Method = "POST" ∨ r.Method = "HEAD" →
        isPreflight r = false
        ∧ ((corsNew corsOptions).Handler r).added
            = [("Access-Control-Allow-Origin", "http://localhost:8080"),
               ("Access-Control-Allow-Credentials", "true")])
    ∧ (isPreflight r = true →
        callsNext corsMiddleware r = false
        ∧ Except.map (fun mx => mx.ServeHTTP r) (buildRouter logger)
            = Except.ok
                [Step.enter Middleware.RequestID,
                 Step.enter (Middleware.WithZap logger withRequestID),
                 Step.enter (Middleware.Request Level.Info "request"),
                 Step.enter corsMiddleware])
    ∧ (isPreflight r = true →
        (ToLower (r.HeaderGet "Origin") ≠ "http://localhost:8080"
          ∨ ¬ (ToUpper (r.HeaderGet "Access-Control-Request-Method") = "OPTIONS"
              ∨ ToUpper (r.HeaderGet "Access-Control-Request-Method") = "GET"
              ∨ ToUpper (r.HeaderGet "Access-Control-Request-Method") = "POST"
              ∨ ToUpper (r.HeaderGet "Access-Control-Request-Method") = "HEAD")) →
        ((corsNew corsOptions).Handler r).added = [])
    ∧ (isPreflight r = true → r.HeaderGet "Origin" = "http://localhost:8080" →
        (r.HeaderGet "Access-Control-Request-Method" = "GET"
          ∨ r.HeaderGet "Access-Control-Request-Method" = "POST"
          ∨ r.HeaderGet "Access-Control-Request-Method" = "HEAD") →
        r.HeaderGet "Access-Control-Request-Headers" = "" →
        ((corsNew corsOptions).Handler r).added
          = [("Access-Control-Allow-Origin", "http://localhost:8080"),
             ("Access-Control-Allow-Methods", r.HeaderGet "Access-Control-Request-Method"),
             ("Access-Control-Allow-Credentials", "true")]) := by
  have hserve : Except.map (fun mx => mx.ServeHTTP r) (buildRouter logger)
      = Except.ok ((mainRouter logger).ServeHTTP r) := by
    rw [buildRouter_eq]
    rfl
  have hactual : isPreflight r = false →
      ((corsNew corsOptions).Handler r).added = (corsNew corsOptions).handleActualRequest r := by
    intro hp
    simp [Cors.Handler, hp]
  have hpre : isPreflight r = true →
      ((corsNew corsOptions).Handler r).added = (corsNew corsOptions).handlePreflight r := by
    intro hp
    simp [Cors.Handler, hp]
  refine ⟨?_, ?_, ?_, ?_, ?_, ?_, ?_⟩
  · intro hp
    refine ⟨by rw [callsNext_cors, hp]; rfl, ?_⟩
    rw [hserve, mainRouter_serve, hp]
    rfl
  · intro hp h0 hpath
    have hq : r.Path ≠ "/" := by
      rw [hpath]
      decide
    refine ⟨[Step.enter Middleware.RequestID,
        Step.enter (Middleware.WithZap logger withRequestID),
        Step.enter (Middleware.Request Level.Info "request"),
        Step.enter corsMiddleware], ?_⟩
    rw [hserve, mainRouter_serve, hp, mainRouter_route, if_neg h0, if_neg hq, if_pos hpath]
    rfl
  · intro hp
    rw [hactual hp, handleActualRequest_eq]
  · intro ho hm
    have hne : r.Method ≠ "OPTIONS" := by
      rcases hm with hm | hm | hm <;> rw [hm] <;> decide
    have hp : isPreflight r = false := isPreflight_of_method r hne
    have hup : ToUpper r.Method = "OPTIONS" ∨ ToUpper r.Method = "GET"
        ∨ ToUpper r.Method = "POST" ∨ ToUpper r.Method = "HEAD" := by
      rcases hm with hm | hm | hm <;> rw [hm] <;> decide
    have hlow : ToLower (r.HeaderGet "Origin") = "http://localhost:8080" := by
      rw [ho]
      decide
    refine ⟨hp, ?_⟩
    rw [hactual hp, handleActualRequest_eq, if_pos ⟨hne, hlow, hup⟩, ho]
  · intro hp
    refine ⟨by rw [callsNext_cors, hp]; rfl, ?_⟩
    rw [hserve, mainRouter_serve, hp]
    rfl
  · intro hp h
    rw [hpre hp]
    rcases h with h | h
    · exact handlePreflight_foreign r h
    · exact handlePreflight_method r h
  · intro hp ho hm hh
    rw [hpre hp]
    exact handlePreflight_allowed r (isPreflight_method r hp) ho hm hh

/-! ## C10: endpoints, port and allow-list -/

/-- C10. In every run: the endpoint path given to the playground handler that
serves the root path is a path under which the GraphQL handler is registered
(both are /query); the port in the playground URL record and in the "port"
field of the "Listen and serve" record is the port of the bind address; and the
cors allow-list is http://localhost:8080 whatever the value of PORT. -/
theorem endpoint_consistency (run : Run) :
    ∃ ex, main run = Except.ok ex
      ∧ (∀ (m : Method) (r : Request), r.Method = m.name → r.Path = "/" →
          ex.server.Handler.routeHTTP r
            = Step.endpoint (Handler.Playground "GraphQL playground" "/query"))
      ∧ (∀ (r : Request) (title endpoint : String),
          ex.server.Handler.routeHTTP r = Step.endpoint (Handler.Playground title endpoint) →
          ∀ (m : Method) (q : Request), q.Method = m.name → q.Path = endpoint →
            ex.server.Handler.routeHTTP q = Step.endpoint Handler.GraphQL)
      ∧ ex.server.Handler.tree.map (fun rt => (rt.pattern, rt.handler))
          = [("/", Handler.Playground "GraphQL playground" "/query"),
             ("/query", Handler.GraphQL)]
      ∧ ex.port = resolvePort run.env
      ∧ ex.server.Addr = ":" ++ ex.port
      ∧ ex.serving.take 3
          = [Event.log Level.Info
               ("Connect to http://localhost:" ++ ex.port ++ "/ for GraphQL playground") [],
             Event.log Level.Info "Listen and serve"
               [Field.str "transport" "HTTP", Field.str "port" ex.port],
             Event.ListenAndServe (":" ++ ex.port)]
      ∧ ex.server.Handler.middlewares.getLast?
          = some (Middleware.corsHandler (corsNew corsOptions))
      ∧ corsOptions.AllowedOrigins = ["http://localhost:8080"]
      ∧ (corsNew corsOptions).allowedOrigins = ["http://localhost:8080"]
      ∧ (corsNew corsOptions).allowedOriginsAll = false
      ∧ (corsNew corsOptions).allowedWOrigins = [] := by
  obtain ⟨ex, hex, hport, haddr, hmux, hserving, _⟩ := main_eq run
  have hknown : ∀ (m : Method) (q : Request), q.Method = m.name →
      ¬ (methodMap q.Method = none) := by
    intro m q hq h
    rw [hq, methodMap_name] at h
    exact Option.noConfusion h
  refine ⟨ex, hex, ?_, ?_, ?_, hport, ?_, ?_, ?_, rfl, by decide, by decide, by decide⟩
  · intro m r hm h
    rw [hmux, mainRouter_route, if_neg (hknown m r hm), if_pos h]
  · intro r title endpoint h m q hm hq
    rw [hmux, mainRouter_route] at h
    rw [hmux, mainRouter_route, if_neg (hknown m q hm)]
    by_cases h0 : methodMap r.Method = none
    · rw [if_pos h0] at h
      exact Step.noConfusion h
    · rw [if_neg h0] at h
      by_cases h1 : r.Path = "/"
      · rw [if_pos h1] at h
        injection h with h
        injection h with _ hend
        have hq2 : q.Path = "/query" := by rw [hq, ← hend]
        have hq1 : q.Path ≠ "/" := by
          rw [hq2]
          decide
        rw [if_neg hq1, if_pos hq2]
      · rw [if_neg h1] at h
        by_cases h2 : r.Path = "/query"
        · rw [if_pos h2] at h
          injection h with h
          exact Handler.noConfusion h
        · rw [if_neg h2] at h
          exact Step.noConfusion h
  · rw [hmux]
    rfl
  · rw [haddr, hport]
  · rw [hserving, hport]
    simp only [serveGoroutine, haddr]
    rfl
  · rw [hmux]
    rfl

/-! ## Example runs -/

theorem example_run_sigint_clean :
    mainEvents ⟨[], GoError.ErrServerClosed, some SIGINT, GoError.nil⟩
      = Except.ok
          [Event.recv (GoError.other "interrupt"),
           Event.log Level.Info "SIGNAL interrupt received, then shutting down..."
             [Field.duration "timeout" 60000000000],
           Event.Shutdown 60000000000,
           Event.log Level.Info "Exit" [],
           Event.cancel,
           Event.exit 0] := rfl

theorem example_run_sigterm_timeout :
    mainEvents ⟨[("PORT", "9999")], GoError.ErrServerClosed, some SIGTERM,
        GoError.other "context deadline exceeded"⟩
      = Except.ok
          [Event.recv (GoError.other "terminated"),
           Event.log Level.Info "SIGNAL terminated received, then shutting down..."
             [Field.duration "timeout" 60000000000],
           Event.Shutdown 60000000000,
           Event.log Level.Error "Failed to gracefully shutdown"
             [Field.error "error" (GoError.other "context deadline exceeded")],
           Event.log Level.Info "Exit" [],
           Event.cancel,
           Event.exit 0] := rfl

theorem example_run_other_signal :
    mainEvents ⟨[], GoError.ErrServerClosed, some { num := 1 }, GoError.nil⟩
      = Except.ok [] := rfl

theorem example_serving_bind_failure :
    servingEvents ⟨[("PORT", "9999")], GoError.other "listen tcp :9999: bind: address already in use",
        none, GoError.nil⟩
      = Except.ok
          [Event.log Level.Info
             "Connect to http://localhost:9999/ for GraphQL playground" [],
           Event.log Level.Info "Listen and serve"
             [Field.str "transport" "HTTP", Field.str "port" "9999"],
           Event.ListenAndServe ":9999",
           Event.log Level.Fatal "Listen failed"
             [Field.error "error"
                (GoError.other "listen tcp :9999: bind: address already in use")],
           Event.exit 1] := rfl

theorem example_withRequestID :
    withRequestID NewDevelopment
        { Method := "GET", Path := "/", Header := [],
          ctx := { values := [(CtxKey.RequestIDKey, CtxValue.str "host/abc-000001")] } }
      = { context := [Field.str "reqId" "host/abc-000001"] } := by
  decide

theorem example_parseHeaderList :
    parseHeaderList "content-type, x-requested-with,accept"
      = ["Content-Type", "X-Requested-With", "Accept"] := by
  decide

theorem example_preflight_with_header :
    ((corsNew corsOptions).Handler
        { Method := "OPTIONS", Path := "/query",
          Header := [("Origin", "http://localhost:8080"),
            ("Access-Control-Request-Method", "POST"),
            ("Access-Control-Request-Headers", "content-type")],
          ctx := { values := [] } }).added
      = [("Access-Control-Allow-Origin", "http://localhost:8080"),
         ("Access-Control-Allow-Methods", "POST"),
         ("Access-Control-Allow-Headers", "Content-Type"),
         ("Access-Control-Allow-Credentials", "true")] := by
  decide

theorem example_unknown_method :
    Except.map (fun mx => mx.ServeHTTP fooQuery) (buildRouter NewDevelopment)
      = Except.ok
          [Step.enter Middleware.RequestID,
           Step.enter (Middleware.WithZap NewDevelopment withRequestID),
           Step.enter (Middleware.Request Level.Info "request"),
           Step.enter corsMiddleware,
           Step.methodNotAllowed] := rfl

end GqlgenTodos
